import Mathlib

/-!
Shallow embedding of the CuideMais backend:
* `src/services/ml_services.py` — the patient-disengagement risk analyzer
* `src/routers/appointments.py` — the appointment CRUD route handlers

Modelling conventions:
* Calendar dates are day numbers (`Int`); Python's `(d1 - d2).days` becomes
  integer subtraction.  The ambient `datetime.now().date()` read inside
  `_extract_patiente_metrics` is threaded explicitly as a `now : Int` parameter.
* Python floats produced by `/` are modelled as exact rationals (`ℚ`).
* Python's `int()` conversion truncates toward zero; `pyInt` models it.
* The SQLAlchemy store is a pair of lists; `.filter(...)` queries become list
  filters, `.order_by(Appointment.date.desc())` becomes a stable descending
  merge sort on the date, `.first()` becomes `List.find?`.
* Python's `sorted(xs, key=..., reverse=True)` is a stable descending sort,
  modelled by `List.mergeSort` with the relation `b.key ≤ a.key` (any stable
  sort produces the identical output, so the choice of algorithm is immaterial).
* Route handlers return a pair (HTTP outcome, post-state of the store);
  `raise HTTPException` becomes the `Except.error` outcome with the store
  unchanged.
-/

namespace CuideMais

/-- `AppointmentStatus` from `models.models`: AGENDADO (Scheduled),
CONCLUIDO (Completed), CANCELADO (Canceled). -/
inductive AppointmentStatus
  | agendado
  | concluido
  | cancelado
deriving DecidableEq

/-- A row of the `Appointment` table, with the fields the analyzed routes and
services read.  `date` is a calendar-day number. -/
structure Appointment where
  id : Nat
  patient_id : Nat
  psychologist_id : Nat
  date : Int
  time : String
  status : AppointmentStatus
deriving DecidableEq

/-- A row of the `Patient` table (fields read by `calculate_patiente_risk`). -/
structure Patient where
  id : Nat
  psychologist_id : Nat
  name : String
deriving DecidableEq

/-- Python's `int()` applied to a float/rational: truncation toward zero. -/
def pyInt (q : ℚ) : Int :=
  if 0 ≤ q then ⌊q⌋ else ⌈q⌉

/-- The metrics dict returned by `_extract_patiente_metrics`. -/
structure Metrics where
  total_appointments : Nat
  completed_appointments : Nat
  canceled_appointments : Nat
  cancellation_rate : ℚ
  days_since_last : Int
  frequency_per_month : ℚ
  appointments_last_30 : Nat
  appointments_last_60 : Nat
  appointments_last_90 : Nat
  recent_trend : Int
  has_future_appointments : Bool
deriving DecidableEq

/-- `_extract_patiente_metrics(appointments)` from `ml_services.py`, with the
ambient `datetime.now().date()` passed explicitly as `now`. -/
def extract_patiente_metrics (now : Int) (appointments : List Appointment) : Metrics :=
  let completed := appointments.filter (fun apt => decide (apt.status = .concluido))
  let canceled := appointments.filter (fun apt => decide (apt.status = .cancelado))
  let scheduled := appointments.filter (fun apt => decide (apt.status = .agendado))
  let last_30_days := appointments.filter (fun apt => decide (now - apt.date ≤ 30))
  let last_60_days := appointments.filter (fun apt => decide (now - apt.date ≤ 60))
  let last_90_days := appointments.filter (fun apt => decide (now - apt.date ≤ 90))
  let days_since_last : Int :=
    match appointments with
    | [] => 999
    | apt :: _ => now - apt.date
  let total_appointments := appointments.length
  let cancellation_rate : ℚ :=
    if total_appointments > 0 then (canceled.length : ℚ) / (total_appointments : ℚ) else 0
  let frequency_per_month : ℚ :=
    match appointments with
    | [] => 0
    | apt :: rest =>
      let first_appointment := (rest.map (·.date)).foldl min apt.date
      let months_active : ℚ := max 1 (((now - first_appointment : Int) : ℚ) / 30)
      (appointments.length : ℚ) / months_active
  let recent_completed := (completed.filter (fun apt => decide (now - apt.date ≤ 30))).length
  let previous_completed :=
    (completed.filter (fun apt => decide (30 < now - apt.date ∧ now - apt.date ≤ 60))).length
  { total_appointments := total_appointments
    completed_appointments := completed.length
    canceled_appointments := canceled.length
    cancellation_rate := cancellation_rate
    days_since_last := days_since_last
    frequency_per_month := frequency_per_month
    appointments_last_30 := last_30_days.length
    appointments_last_60 := last_60_days.length
    appointments_last_90 := last_90_days.length
    recent_trend := (recent_completed : Int) - (previous_completed : Int)
    has_future_appointments := decide (scheduled.length > 0) }

/-- The floating-point accumulator `score` of `_calculate_risk_score` just
before the final `min(int(score), 100)`: the five weighted contributions,
written as one sum (the source accumulates with `score += ...`). -/
def risk_score_sum (m : Metrics) : ℚ :=
  min ((m.days_since_last : ℚ) / 60) 1 * 30
  + m.cancellation_rate * 25
  + (if m.frequency_per_month < 1 then 20 else if m.frequency_per_month < 2 then 10 else 0)
  + (if m.appointments_last_30 = 0 then 15 else if m.appointments_last_60 = 0 then 10 else 0)
  + (if m.recent_trend < -1 then 10 else if m.recent_trend < 0 then 5 else 0)
  + (if !m.has_future_appointments then 5 else 0)

/-- `_calculate_risk_score(metrics)`: `return min(int(score), 100)`. -/
def calculate_risk_score (m : Metrics) : Int :=
  min (pyInt (risk_score_sum m)) 100

/-- `_determine_risk_level(risk_score)`. -/
def determine_risk_level (risk_score : Int) : String :=
  if risk_score ≥ 70 then "Alto"
  else if risk_score ≥ 40 then "Médio"
  else "Baixo"

/-- `_identify_risk_reason(metrics)`: appends each matching reason to a list
and returns the first entry (or the default when the list is empty). -/
def identify_risk_reason (m : Metrics) : String :=
  let reasons : List String := []
  let reasons :=
    if m.days_since_last > 45 then reasons ++ ["Ausente há mais de 45 dias"]
    else if m.days_since_last > 30 then reasons ++ ["Ausente há mais de 30 dias"]
    else reasons
  let reasons :=
    if m.cancellation_rate > 3/10 then reasons ++ ["Alta taxa de cancelamentos"]
    else if m.cancellation_rate > 2/10 then reasons ++ ["Cancelamentos frequentes"]
    else reasons
  let reasons :=
    if m.frequency_per_month < 1 then reasons ++ ["Baixa frequência de consultas"] else reasons
  let reasons :=
    if m.appointments_last_30 = 0 then reasons ++ ["Sem consultas no último mês"] else reasons
  let reasons :=
    if m.recent_trend < -1 then reasons ++ ["Diminuição na frequência"] else reasons
  let reasons :=
    if !m.has_future_appointments then reasons ++ ["Sem agendamentos futuros"] else reasons
  reasons.headD "Padrão normal de consultas"

/-- The spec's reason selection, written as strict first-match over the nine
conditions in the fixed priority order (compared against the appending
implementation `identify_risk_reason` in claim C4). -/
def identify_risk_reason_firstMatch (m : Metrics) : String :=
  if m.days_since_last > 45 then "Ausente há mais de 45 dias"
  else if m.days_since_last > 30 then "Ausente há mais de 30 dias"
  else if m.cancellation_rate > 3/10 then "Alta taxa de cancelamentos"
  else if m.cancellation_rate > 2/10 then "Cancelamentos frequentes"
  else if m.frequency_per_month < 1 then "Baixa frequência de consultas"
  else if m.appointments_last_30 = 0 then "Sem consultas no último mês"
  else if m.recent_trend < -1 then "Diminuição na frequência"
  else if !m.has_future_appointments then "Sem agendamentos futuros"
  else "Padrão normal de consultas"

/-- The relational store the routes and services query. -/
structure Database where
  patients : List Patient
  appointments : List Appointment

/-- `db.query(Patient).filter(Patient.psychologist_id == psychologist_id).all()`. -/
def queryPatients (db : Database) (psychologist_id : Nat) : List Patient :=
  db.patients.filter (fun p => decide (p.psychologist_id = psychologist_id))

/-- `db.query(Appointment).filter(patient_id == ..., psychologist_id == ...)
.order_by(Appointment.date.desc()).all()`. -/
def queryAppointments (db : Database) (psychologist_id patient_id : Nat) : List Appointment :=
  (db.appointments.filter
      (fun a => decide (a.patient_id = patient_id ∧ a.psychologist_id = psychologist_id))).mergeSort
    (fun a b => decide (b.date ≤ a.date))

/-- One entry of the `risk_analysis` list built by `calculate_patiente_risk`. -/
structure RiskResult where
  id : Nat
  patient : String
  risk_score : Int
  risk_level : String
  reason : String
  last_appointment : Option Int
  metrics : Metrics
deriving DecidableEq

/-- The dict appended for one patient in the loop of `calculate_patiente_risk`. -/
def mkRiskResult (now : Int) (patient : Patient) (appointments : List Appointment) : RiskResult :=
  let metrics := extract_patiente_metrics now appointments
  let risk_score := calculate_risk_score metrics
  { id := patient.id
    patient := patient.name
    risk_score := risk_score
    risk_level := determine_risk_level risk_score
    reason := identify_risk_reason metrics
    last_appointment := appointments.head?.map (·.date)
    metrics := metrics }

/-- The `risk_analysis` list before the final sort: one entry per patient of
the psychologist, skipping (`continue`) patients with no appointments. -/
def risk_entries (db : Database) (psychologist_id : Nat) (now : Int) : List RiskResult :=
  (queryPatients db psychologist_id).filterMap (fun patient =>
    let appointments := queryAppointments db psychologist_id patient.id
    match appointments with
    | [] => none
    | _ => some (mkRiskResult now patient appointments))

/-- The comparison used by the final
`sorted(risk_analysis, key=lambda x: x["risk_score"], reverse=True)`:
a stable sort that puts `a` before `b` exactly when `a`'s score is ≥ `b`'s. -/
def riskLe (a b : RiskResult) : Bool :=
  decide (b.risk_score ≤ a.risk_score)

/-- `calculate_patiente_risk(db, psychologist_id)`, with the ambient current
date passed explicitly as `now`. -/
def calculate_patiente_risk (db : Database) (psychologist_id : Nat) (now : Int) :
    List RiskResult :=
  (risk_entries db psychologist_id now).mergeSort riskLe

/-! Embedding of `src/routers/appointments.py`: the create and cancel route
handlers.  Each handler takes the authenticated user and the current contents
of the `Appointment` table, and returns the HTTP outcome together with the
post-state of the table (`raise HTTPException` leaves the table unchanged). -/

/-- `UserType` from `models.models`. -/
inductive UserType
  | psicologo
  | paciente
deriving DecidableEq

/-- A row of the `User` table (fields the appointment routes read). -/
structure User where
  id : Nat
  email : String
  user_type : UserType
deriving DecidableEq

/-- An `HTTPException` raised by a route handler. -/
structure HttpError where
  status_code : Nat
  detail : String
deriving DecidableEq

/-- The `AppointmentCreate` request schema. -/
structure AppointmentCreate where
  patient_id : Nat
  psychologist_id : Nat
  date : Int
  time : String
deriving DecidableEq

/-- The duplicate-slot filter of `create_appointment`: same psychologist, same
date, same time, status AGENDADO. -/
def conflictsWith (appointment_data : AppointmentCreate) (a : Appointment) : Bool :=
  decide (a.psychologist_id = appointment_data.psychologist_id ∧
    a.date = appointment_data.date ∧ a.time = appointment_data.time ∧
    a.status = AppointmentStatus.agendado)

/-- `create_appointment(appointment_data, current_user, db)`.  `newId` stands
for the fresh primary key the database assigns to the inserted row. -/
def create_appointment (appointment_data : AppointmentCreate) (current_user : User)
    (newId : Nat) (appointments : List Appointment) :
    Except HttpError Appointment × List Appointment :=
  match appointments.find? (conflictsWith appointment_data) with
  | some _ => (.error ⟨400, "Já existe um agendamento para esse horário."⟩, appointments)
  | none =>
    let new_appointment : Appointment :=
      { id := newId
        patient_id := appointment_data.patient_id
        psychologist_id := appointment_data.psychologist_id
        date := appointment_data.date
        time := appointment_data.time
        status := AppointmentStatus.agendado }
    (.ok new_appointment, appointments ++ [new_appointment])

/-- In-place mutation of the single ORM row returned by `.first()`: the first
element satisfying `p` is replaced by its image under `f`; everything else is
untouched. -/
def updateFirst (p : Appointment → Bool) (f : Appointment → Appointment) :
    List Appointment → List Appointment
  | [] => []
  | a :: rest => if p a then f a :: rest else a :: updateFirst p f rest

/-- `cancel_appointment(appointment_id, current_user, db)`: looks the row up by
id (no ownership check on `current_user`) and sets its status to CANCELADO. -/
def cancel_appointment (appointment_id : Nat) (current_user : User)
    (appointments : List Appointment) :
    Except HttpError String × List Appointment :=
  match appointments.find? (fun a => decide (a.id = appointment_id)) with
  | none => (.error ⟨404, "Agendamento não encontrado."⟩, appointments)
  | some _ =>
    (.ok "Agendamento cancelado com sucesso.",
      updateFirst (fun a => decide (a.id = appointment_id))
        (fun a => { a with status := AppointmentStatus.cancelado }) appointments)

/-- Fixture: a Scheduled appointment dated 700 days after the as-of date 0. -/
def appointmentIn700Days : Appointment :=
  { id := 1, patient_id := 1, psychologist_id := 1, date := 700, time := "08:00",
    status := AppointmentStatus.agendado }

/-- Fixture: a Scheduled appointment dated 701 days after the as-of date 0. -/
def appointmentIn701Days : Appointment :=
  { id := 1, patient_id := 1, psychologist_id := 1, date := 701, time := "08:00",
    status := AppointmentStatus.agendado }

/-- Fixture: a Completed appointment dated on the as-of date 0. -/
def completedToday : Appointment :=
  { id := 1, patient_id := 1, psychologist_id := 1, date := 0, time := "08:00",
    status := AppointmentStatus.concluido }

/-- Fixture: a Scheduled appointment dated 10 days before the as-of date 0. -/
def pastScheduledAppointment : Appointment :=
  { id := 1, patient_id := 1, psychologist_id := 1, date := -10, time := "08:00",
    status := AppointmentStatus.agendado }

/-- Fixture: a metrics record with every numeric field zero. -/
def neutralMetrics : Metrics :=
  { total_appointments := 0, completed_appointments := 0, canceled_appointments := 0,
    cancellation_rate := 0, days_since_last := 0, frequency_per_month := 0,
    appointments_last_30 := 0, appointments_last_60 := 0, appointments_last_90 := 0,
    recent_trend := 0, has_future_appointments := false }

/-! Helper lemmas shared by the claim theorems. -/

lemma pyInt_of_nonneg {q : ℚ} (h : 0 ≤ q) : pyInt q = ⌊q⌋ := by
  rw [pyInt, if_pos h]

lemma pyInt_nonneg {q : ℚ} (h : 0 ≤ q) : 0 ≤ pyInt q := by
  rw [pyInt, if_pos h]
  exact Int.floor_nonneg.mpr h

lemma risk_score_sum_nonneg (m : Metrics) (hd : 0 ≤ m.days_since_last)
    (hc : 0 ≤ m.cancellation_rate) : 0 ≤ risk_score_sum m := by
  rw [risk_score_sum]
  have h1 : (0 : ℚ) ≤ min ((m.days_since_last : ℚ) / 60) 1 * 30 := by
    have h0 : (0 : ℚ) ≤ (m.days_since_last : ℚ) / 60 := by positivity
    have := le_min h0 (by norm_num : (0:ℚ) ≤ 1)
    nlinarith [this]
  have h2 : (0 : ℚ) ≤ m.cancellation_rate * 25 := by nlinarith
  split_ifs <;> linarith

lemma cancellation_rate_nonneg (now : Int) (appointments : List Appointment) :
    0 ≤ (extract_patiente_metrics now appointments).cancellation_rate := by
  simp only [extract_patiente_metrics]
  split_ifs <;> positivity

lemma days_since_last_nonneg (now : Int) (appointments : List Appointment)
    (h : ∀ a ∈ appointments, a.date ≤ now) :
    0 ≤ (extract_patiente_metrics now appointments).days_since_last := by
  simp only [extract_patiente_metrics]
  cases appointments with
  | nil => norm_num
  | cons a rest =>
    simp only
    have := h a (List.mem_cons_self a rest)
    omega

lemma riskLe_trans (a b c : RiskResult) : riskLe a b → riskLe b c → riskLe a c := by
  simp only [riskLe, decide_eq_true_eq]
  omega

lemma riskLe_total (a b : RiskResult) : riskLe a b || riskLe b a := by
  simp only [riskLe, Bool.or_eq_true, decide_eq_true_eq]
  omega

lemma risk_entries_ids (db : Database) (pid : Nat) (now : Int) :
    (risk_entries db pid now).map (·.id) =
      ((queryPatients db pid).filter
        (fun p => !(queryAppointments db pid p.id).isEmpty)).map (·.id) := by
  rw [risk_entries]
  generalize queryPatients db pid = ps
  induction ps with
  | nil => rfl
  | cons p ps ih =>
    simp only [List.filterMap_cons, List.filter_cons]
    cases hq : queryAppointments db pid p.id with
    | nil => simpa [hq] using ih
    | cons a rest => simpa [mkRiskResult] using ih

lemma cancel_appointment_cons_ne (appointment_id : Nat) (user : User) (a : Appointment)
    (rest : List Appointment) (ha : ¬ a.id = appointment_id) :
    cancel_appointment appointment_id user (a :: rest) =
      ((cancel_appointment appointment_id user rest).1,
        a :: (cancel_appointment appointment_id user rest).2) := by
  have hda : (decide (a.id = appointment_id)) = false := by simp [ha]
  simp only [cancel_appointment, List.find?_cons, hda]
  cases hf : List.find? (fun x => decide (x.id = appointment_id)) rest <;>
    simp [hf, updateFirst, hda]

/-! The claim theorems. -/

/-- C1 (counterexample): for the history consisting of one Scheduled
appointment dated 700 days after the as-of date, the risk score computed by
the code is negative, so `0 ≤ risk_score` fails for future-dated records. -/
theorem risk_score_lower_bound_counterexample :
    calculate_risk_score (extract_patiente_metrics 0 [appointmentIn700Days]) < 0 := by
  have hs : risk_score_sum (extract_patiente_metrics 0 [appointmentIn700Days]) = -340 := by
    simp [extract_patiente_metrics, risk_score_sum, min_def, max_def, appointmentIn700Days]
    norm_num
  have hc : (⌈((-340 : ℚ))⌉ : Int) = -340 := by
    rw [Int.ceil_eq_iff]
    constructor <;> norm_num
  rw [calculate_risk_score, hs, pyInt, if_neg (by norm_num), hc]
  decide

/-- C1 (amended): the risk score emitted for any appointment history is always
at most 100, and it is at least 0 whenever no appointment in the history is
future-dated relative to the as-of date. -/
theorem risk_score_bounds (now : Int) (appointments : List Appointment) :
    calculate_risk_score (extract_patiente_metrics now appointments) ≤ 100 ∧
      ((∀ a ∈ appointments, a.date ≤ now) →
        0 ≤ calculate_risk_score (extract_patiente_metrics now appointments)) := by
  constructor
  · exact min_le_right _ _
  · intro h
    rw [calculate_risk_score]
    have hnn := risk_score_sum_nonneg (extract_patiente_metrics now appointments)
      (days_since_last_nonneg now appointments h)
      (cancellation_rate_nonneg now appointments)
    exact le_min (pyInt_nonneg hnn) (by norm_num)

/-- C1 (witness): the bounds hold concretely for one Completed appointment on
the as-of date. -/
theorem risk_score_bounds_witness :
    calculate_risk_score (extract_patiente_metrics 0 [completedToday]) ≤ 100 ∧
      0 ≤ calculate_risk_score (extract_patiente_metrics 0 [completedToday]) :=
  ⟨(risk_score_bounds 0 [completedToday]).1,
    (risk_score_bounds 0 [completedToday]).2 (by decide)⟩

/-- C2: the ids emitted by `calculate_patiente_risk` are exactly (up to the
final sort) the ids of the psychologist's patients whose appointment-history
query is nonempty — a patient with zero records is excluded, with no error —
and an empty patient set yields the empty result sequence. -/
theorem patients_without_history_excluded (db : Database) (pid : Nat) (now : Int) :
    ((calculate_patiente_risk db pid now).map (·.id)).Perm
      (((queryPatients db pid).filter
        (fun p => !(queryAppointments db pid p.id).isEmpty)).map (·.id)) ∧
    (queryPatients db pid = [] → calculate_patiente_risk db pid now = []) := by
  constructor
  · have h1 : (calculate_patiente_risk db pid now).Perm (risk_entries db pid now) :=
      List.mergeSort_perm _ _
    have h2 := h1.map (·.id)
    rwa [risk_entries_ids] at h2
  · intro h
    rw [calculate_patiente_risk, risk_entries, h]
    simp

/-- C2 (witness): a store with no patients yields the empty result sequence. -/
theorem patients_without_history_excluded_witness :
    calculate_patiente_risk ⟨[], []⟩ 1 0 = [] :=
  (patients_without_history_excluded ⟨[], []⟩ 1 0).2 rfl

/-- C3: the output of `calculate_patiente_risk` is sorted by risk score in
descending order, and results with equal score keep the relative order they
had in the pre-sort per-patient list (stability). -/
theorem risk_results_sorted_desc_stable (db : Database) (pid : Nat) (now : Int) :
    (calculate_patiente_risk db pid now).Pairwise
      (fun a b => b.risk_score ≤ a.risk_score) ∧
    ∀ s : Int,
      (calculate_patiente_risk db pid now).filter (fun r => decide (r.risk_score = s)) =
        (risk_entries db pid now).filter (fun r => decide (r.risk_score = s)) := by
  constructor
  · have h := List.sorted_mergeSort riskLe_trans riskLe_total (risk_entries db pid now)
    rw [calculate_patiente_risk]
    exact h.imp (by intro a b hab; simpa [riskLe] using hab)
  · intro s
    set p : RiskResult → Bool := fun r => decide (r.risk_score = s) with hp
    set pre := risk_entries db pid now with hpre
    have hmem : ∀ r ∈ pre.filter p, r.risk_score = s := by
      intro r hr
      have hmf := List.of_mem_filter hr
      simpa [hp] using hmf
    have hpair : (pre.filter p).Pairwise (fun a b => riskLe a b = true) := by
      apply List.pairwise_of_forall_mem_list
      intro a ha b hb
      simp only [riskLe, decide_eq_true_eq, hmem a ha, hmem b hb]
      exact le_refl s
    have hsub : List.Sublist (pre.filter p) (List.mergeSort pre riskLe) :=
      List.sublist_mergeSort riskLe_trans riskLe_total hpair (List.filter_sublist pre)
    have hsub2 : List.Sublist (pre.filter p) ((List.mergeSort pre riskLe).filter p) := by
      have hff := hsub.filter p
      rwa [List.filter_filter, show (fun a => p a && p a) = p by funext a; cases p a <;> rfl]
        at hff
    have hperm : ((List.mergeSort pre riskLe).filter p).Perm (pre.filter p) :=
      (List.mergeSort_perm pre riskLe).filter p
    rw [calculate_patiente_risk, ← hpre]
    exact (hsub2.eq_of_length hperm.length_eq.symm).symm

set_option maxHeartbeats 1000000 in
/-- C4: the appending implementation of the risk-reason selection is
observationally equal to strict first-match over the nine conditions in the
spec's fixed priority order, with the normal-pattern default. -/
theorem risk_reason_equals_first_match (m : Metrics) :
    identify_risk_reason m = identify_risk_reason_firstMatch m := by
  simp only [identify_risk_reason, identify_risk_reason_firstMatch]
  split_ifs <;> rfl

/-- C5 (counterexample): for the history consisting of one Scheduled
appointment dated 701 days after the as-of date the weighted sum is −340.5;
Python's `int()` truncates it toward zero (−340), not toward the floor (−341),
so the final score differs from `min(floor(sum), 100)`. -/
theorem risk_score_floor_counterexample :
    calculate_risk_score (extract_patiente_metrics 0 [appointmentIn701Days]) ≠
      min ⌊risk_score_sum (extract_patiente_metrics 0 [appointmentIn701Days])⌋ 100 := by
  have hs : risk_score_sum (extract_patiente_metrics 0 [appointmentIn701Days]) = -(681/2) := by
    simp [extract_patiente_metrics, risk_score_sum, min_def, max_def, appointmentIn701Days]
    norm_num
  have hc : (⌈(-(681/2) : ℚ)⌉ : Int) = -340 := by
    rw [Int.ceil_eq_iff]
    constructor <;> norm_num
  have hf : (⌊(-(681/2) : ℚ)⌋ : Int) = -341 := by
    rw [Int.floor_eq_iff]
    constructor <;> norm_num
  rw [calculate_risk_score, hs, pyInt, if_neg (by norm_num), hc, hf]
  decide

/-- C5 (amended): the final score is `min` of 100 and the weighted sum
converted with truncation toward zero, and that conversion agrees with
truncation toward the floor whenever `days_since_last` and
`cancellation_rate` are nonnegative (in particular for every history with no
future-dated appointment). -/
theorem risk_score_truncates_toward_zero (m : Metrics) :
    calculate_risk_score m = min (pyInt (risk_score_sum m)) 100 ∧
      (0 ≤ m.days_since_last → 0 ≤ m.cancellation_rate →
        calculate_risk_score m = min ⌊risk_score_sum m⌋ 100) := by
  refine ⟨rfl, fun hd hc => ?_⟩
  rw [calculate_risk_score, pyInt_of_nonneg (risk_score_sum_nonneg m hd hc)]

/-- C5 (witness): the floor form holds concretely at the all-zero metrics. -/
theorem risk_score_truncates_toward_zero_witness :
    calculate_risk_score neutralMetrics = min ⌊risk_score_sum neutralMetrics⌋ 100 :=
  (risk_score_truncates_toward_zero neutralMetrics).2 (le_refl 0) (le_refl 0)

/-- C6: the derived `has_future_appointments` flag is true exactly when some
appointment in the history has status Scheduled, with no filtering on the
appointment's date. -/
theorem has_future_appointments_iff_scheduled (now : Int) (appointments : List Appointment) :
    (extract_patiente_metrics now appointments).has_future_appointments = true ↔
      ∃ a ∈ appointments, a.status = AppointmentStatus.agendado := by
  simp only [extract_patiente_metrics]
  simp [List.length_pos, List.filter_eq_nil_iff]

/-- C6 (witness): a Scheduled record dated 10 days in the past still makes the
flag true. -/
theorem has_future_appointments_iff_scheduled_witness :
    (extract_patiente_metrics 0 [pastScheduledAppointment]).has_future_appointments = true :=
  (has_future_appointments_iff_scheduled 0 [pastScheduledAppointment]).mpr
    ⟨pastScheduledAppointment, List.mem_cons_self _ _, rfl⟩

/-- C7: for a history of exactly one appointment dated on the as-of date with
status Completed, `days_since_last = 0`, `frequency_per_month = 1` (the
months-active denominator is floored at 1), and the `< 1` low-frequency branch
of the scoring model is not triggered. -/
theorem single_appointment_today_metrics (now : Int) (a : Appointment)
    (hdate : a.date = now) (hstatus : a.status = AppointmentStatus.concluido) :
    (extract_patiente_metrics now [a]).days_since_last = 0 ∧
      (extract_patiente_metrics now [a]).frequency_per_month = 1 ∧
      ¬ (extract_patiente_metrics now [a]).frequency_per_month < 1 := by
  clear hstatus
  simp only [extract_patiente_metrics]
  simp [hdate]

/-- C7 (witness): the boundary behaviour at a concrete Completed appointment
dated on the as-of date 0. -/
theorem single_appointment_today_metrics_witness :
    (extract_patiente_metrics 0 [completedToday]).days_since_last = 0 ∧
      (extract_patiente_metrics 0 [completedToday]).frequency_per_month = 1 ∧
      ¬ (extract_patiente_metrics 0 [completedToday]).frequency_per_month < 1 :=
  single_appointment_today_metrics 0 completedToday rfl rfl

/-- C8: the analysis is a pure function of the psychologist's stored patient
list, those patients' appointment histories, and the as-of date: two stores
agreeing on these yield identical result sequences. -/
theorem calculate_patiente_risk_deterministic (db1 db2 : Database) (pid : Nat) (now : Int)
    (hp : queryPatients db1 pid = queryPatients db2 pid)
    (ha : ∀ p ∈ queryPatients db1 pid,
      queryAppointments db1 pid p.id = queryAppointments db2 pid p.id) :
    calculate_patiente_risk db1 pid now = calculate_patiente_risk db2 pid now := by
  rw [calculate_patiente_risk, calculate_patiente_risk]
  congr 1
  rw [risk_entries, risk_entries, ← hp]
  apply List.filterMap_congr
  intro p hmem
  rw [ha p hmem]

/-- C8 (witness): two structurally different stores that agree on
psychologist 1's patients produce identical outputs. -/
theorem calculate_patiente_risk_deterministic_witness :
    calculate_patiente_risk ⟨[⟨5, 2, "Ana"⟩], []⟩ 1 0 =
      calculate_patiente_risk ⟨[], []⟩ 1 0 := by
  apply calculate_patiente_risk_deterministic ⟨[⟨5, 2, "Ana"⟩], []⟩ ⟨[], []⟩ 1 0
  · rfl
  · intro p hmem
    simp [queryPatients] at hmem

/-- C9: for any stored appointment id, `cancel_appointment` succeeds for every
authenticated user (no ownership check): the first row with that id gets its
status set to CANCELADO with every other field preserved, and every other row
of the store is unchanged. -/
theorem cancel_appointment_no_ownership_frame (user : User)
    (appointments : List Appointment) (appointment_id : Nat)
    (h : ∃ a ∈ appointments, a.id = appointment_id) :
    (∀ other : User, cancel_appointment appointment_id other appointments =
      cancel_appointment appointment_id user appointments) ∧
    ∃ l1 a l2,
      appointments = l1 ++ a :: l2 ∧ a.id = appointment_id ∧
      (∀ b ∈ l1, b.id ≠ appointment_id) ∧
      (cancel_appointment appointment_id user appointments).1 =
        Except.ok "Agendamento cancelado com sucesso." ∧
      (cancel_appointment appointment_id user appointments).2 =
        l1 ++ { a with status := AppointmentStatus.cancelado } :: l2 := by
  refine ⟨fun other => rfl, ?_⟩
  induction appointments with
  | nil => simp at h
  | cons a rest ih =>
    by_cases ha : a.id = appointment_id
    · refine ⟨[], a, rest, by simp, ha, by simp, ?_, ?_⟩
      · simp [cancel_appointment, List.find?_cons, ha]
      · simp [cancel_appointment, List.find?_cons, ha, updateFirst]
    · obtain ⟨b, hb, hbid⟩ := h
      rcases List.mem_cons.mp hb with rfl | hbrest
      · exact absurd hbid ha
      · obtain ⟨l1, c, l2, hdec, hcid, hl1, hok, hpost⟩ := ih ⟨b, hbrest, hbid⟩
        refine ⟨a :: l1, c, l2, by rw [hdec]; rfl, hcid, ?_, ?_, ?_⟩
        · intro x hx
          rcases List.mem_cons.mp hx with rfl | hxl1
          · exact ha
          · exact hl1 x hxl1
        · rw [cancel_appointment_cons_ne appointment_id user a rest ha]
          exact hok
        · rw [cancel_appointment_cons_ne appointment_id user a rest ha]
          simp only [hpost]
          rfl

/-- C9 (witness): a patient-type user who owns nothing cancels appointment 5. -/
theorem cancel_appointment_no_ownership_frame_witness :
    (cancel_appointment 5 ⟨9, "pac@x", UserType.paciente⟩
        [{ id := 5, patient_id := 1, psychologist_id := 1, date := 0, time := "08:00",
           status := AppointmentStatus.agendado }]).1 =
      Except.ok "Agendamento cancelado com sucesso." := by
  obtain ⟨-, l1, a, l2, -, -, -, hok, -⟩ :=
    cancel_appointment_no_ownership_frame ⟨9, "pac@x", UserType.paciente⟩
      [{ id := 5, patient_id := 1, psychologist_id := 1, date := 0, time := "08:00",
         status := AppointmentStatus.agendado }] 5
      ⟨{ id := 5, patient_id := 1, psychologist_id := 1, date := 0, time := "08:00",
         status := AppointmentStatus.agendado }, List.mem_cons_self _ _, rfl⟩
  exact hok

/-- C10: `create_appointment` reports HTTP 400 exactly when the store already
holds an appointment with the same psychologist, date and time whose status is
AGENDADO (Canceled/Completed rows do not block); on that error the store is
unchanged, and otherwise exactly the one new AGENDADO appointment is added. -/
theorem create_appointment_conflict_iff (appointment_data : AppointmentCreate)
    (user : User) (newId : Nat) (appointments : List Appointment) :
    ((∃ e, (create_appointment appointment_data user newId appointments).1 =
        Except.error e ∧ e.status_code = 400) ↔
      ∃ a ∈ appointments, a.psychologist_id = appointment_data.psychologist_id ∧
        a.date = appointment_data.date ∧ a.time = appointment_data.time ∧
        a.status = AppointmentStatus.agendado) ∧
    ((∃ e, (create_appointment appointment_data user newId appointments).1 =
        Except.error e) →
      (create_appointment appointment_data user newId appointments).2 = appointments) ∧
    ((¬ ∃ a ∈ appointments, a.psychologist_id = appointment_data.psychologist_id ∧
        a.date = appointment_data.date ∧ a.time = appointment_data.time ∧
        a.status = AppointmentStatus.agendado) →
      (create_appointment appointment_data user newId appointments).2 =
        appointments ++
          [{ id := newId
             patient_id := appointment_data.patient_id
             psychologist_id := appointment_data.psychologist_id
             date := appointment_data.date
             time := appointment_data.time
             status := AppointmentStatus.agendado }]) := by
  have hiff : (∃ a ∈ appointments, conflictsWith appointment_data a = true) ↔
      ∃ a ∈ appointments, a.psychologist_id = appointment_data.psychologist_id ∧
        a.date = appointment_data.date ∧ a.time = appointment_data.time ∧
        a.status = AppointmentStatus.agendado := by
    simp [conflictsWith]
  cases hf : appointments.find? (conflictsWith appointment_data) with
  | none =>
    have hnone : ¬ ∃ a ∈ appointments,
        a.psychologist_id = appointment_data.psychologist_id ∧
        a.date = appointment_data.date ∧ a.time = appointment_data.time ∧
        a.status = AppointmentStatus.agendado := by
      rw [← hiff]
      intro ⟨a, hmem, hconf⟩
      exact absurd hconf (by simpa using List.find?_eq_none.mp hf a hmem)
    refine ⟨?_, ?_, ?_⟩
    · constructor
      · intro ⟨e, he, _⟩
        simp only [create_appointment, hf] at he
        simp at he
      · intro hc
        exact absurd hc hnone
    · intro ⟨e, he⟩
      simp only [create_appointment, hf] at he
      simp at he
    · intro _
      simp only [create_appointment, hf]
  | some v =>
    have hv := List.find?_some hf
    have hmem := List.mem_of_find?_eq_some hf
    have hc : ∃ a ∈ appointments,
        a.psychologist_id = appointment_data.psychologist_id ∧
        a.date = appointment_data.date ∧ a.time = appointment_data.time ∧
        a.status = AppointmentStatus.agendado := by
      rw [← hiff]
      exact ⟨v, hmem, hv⟩
    refine ⟨?_, ?_, ?_⟩
    · constructor
      · intro _
        exact hc
      · intro _
        exact ⟨⟨400, "Já existe um agendamento para esse horário."⟩, by simp [create_appointment, hf], rfl⟩
    · intro _
      simp only [create_appointment, hf]
    · intro hnc
      exact absurd hc hnc

/-- C10 (witness): creating into an empty store adds exactly the one new
AGENDADO appointment. -/
theorem create_appointment_conflict_iff_witness :
    (create_appointment ⟨1, 2, 10, "08:00"⟩ ⟨9, "pac@x", UserType.paciente⟩ 7 []).2 =
      [{ id := 7, patient_id := 1, psychologist_id := 2, date := 10, time := "08:00",
         status := AppointmentStatus.agendado }] := by
  have h := (create_appointment_conflict_iff ⟨1, 2, 10, "08:00"⟩
    ⟨9, "pac@x", UserType.paciente⟩ 7 []).2.2
  simpa using h (by simp)

end CuideMais
